import Mathlib

set_option autoImplicit false
set_option linter.unusedVariables false

/-!
Verification of the cmt-poster-generator layout and compositing engine.

Python strings are modelled as lists of characters (`PyStr`); a PIL font is
modelled by its glyph-bounding-box width function `List Char → Nat`
(that is, by `font.getbbox(s)[2] - font.getbbox(s)[0]`); images are modelled
at the dimension level, and the CPython float expressions of the layout code
are modelled by exact rational arithmetic with `Int.floor` for `int(...)`
(all values floored here are nonnegative, where truncation and floor agree).
All definitions are transcribed from `app/services/poster_composer.py`,
`app/poster/generator.py`, `app/services/image_service.py` and
`app/services/font_service.py`.
-/

namespace CmtPoster

abbrev PyStr := List Char

/-! ## Text metrics: the two wrapping routines -/

/-- Python `str.split()` with no separator: split on runs of whitespace and
drop empty chunks.  The accumulator holds the current word reversed. -/
def splitWordsAux : List Char → List Char → List PyStr
  | [], cur => if cur = [] then [] else [cur.reverse]
  | c :: cs, cur =>
      if c.isWhitespace then
        if cur = [] then splitWordsAux cs []
        else cur.reverse :: splitWordsAux cs []
      else splitWordsAux cs (c :: cur)

/-- `text.split()` as used by both wrapping routines. -/
def splitWords (s : PyStr) : List PyStr := splitWordsAux s []

/-- Concatenation of lines with single spaces, as in `" ".join(lines)`; the
whitespace-normalised form of a text is `joinSp (splitWords text)`. -/
def joinSp : List PyStr → PyStr
  | [] => []
  | [w] => w
  | w :: w2 :: ws => w ++ ' ' :: joinSp (w2 :: ws)

/-- Loop of `PosterComposer._wrap_text` (poster_composer.py lines 830-849):
the candidate line `test` is `current_line` extended by a space and the next
word; if it fits it becomes the current line, otherwise the current line is
committed (when non-empty) and the word starts a new line. -/
def wrapAux (font : PyStr → Nat) (maxWidth : Nat) : List PyStr → PyStr → List PyStr
  | [], cur => if cur = [] then [] else [cur]
  | w :: ws, cur =>
      let test := if cur = [] then w else cur ++ ' ' :: w
      if font test ≤ maxWidth then wrapAux font maxWidth ws test
      else if cur = [] then wrapAux font maxWidth ws w
      else cur :: wrapAux font maxWidth ws w

/-- `PosterComposer._wrap_text(text, font, max_width)`. -/
def wrap_text (font : PyStr → Nat) (text : PyStr) (maxWidth : Nat) : List PyStr :=
  wrapAux font maxWidth (splitWords text) []

/-- Loop of the wrapping in `draw_wrapped_text` (generator.py lines 119-136)
and of the local `wrap_text` closures in `compose_poster`: commits the
current line when the candidate is over-wide and the current line is
non-empty, otherwise accumulates the candidate. -/
def drawWrapAux (font : PyStr → Nat) (maxWidth : Nat) : List PyStr → PyStr → List PyStr
  | [], cur => if cur = [] then [] else [cur]
  | w :: ws, cur =>
      let test := if cur = [] then w else cur ++ ' ' :: w
      if maxWidth < font test ∧ cur ≠ [] then cur :: drawWrapAux font maxWidth ws w
      else drawWrapAux font maxWidth ws test

/-- The line list computed inside `draw_wrapped_text` (generator.py). -/
def draw_wrapped_text_lines (font : PyStr → Nat) (text : PyStr) (maxWidth : Nat) :
    List PyStr :=
  drawWrapAux font maxWidth (splitWords text) []

/-! ## Speaker grid geometry -/

/-- `max_per_row = 4` in `compose_poster` (generator.py line 150). -/
def max_per_row : ℕ := 4

/-- `rows = math.ceil(n / max_per_row)` (generator.py line 151), exact
ceiling division on the integer arguments used. -/
def grid_rows (n : ℕ) : ℕ := (n + (max_per_row - 1)) / max_per_row

/-- `speakers_in_row = min(max_per_row, n - row * max_per_row)`
(generator.py line 155). -/
def speakers_in_row (n row : ℕ) : ℕ := min max_per_row (n - row * max_per_row)

/-- `circle_size = 320 if n == 1 else 220 if n == 2 else 160`
(generator.py line 152). -/
def circle_size_compose (n : ℕ) : ℕ := if n = 1 then 320 else if n = 2 then 220 else 160

/-- Canvas width 1200 (generator.py line 101, poster_composer.py line 21). -/
def poster_width : ℕ := 1200

/-- Canvas height 1600 (generator.py line 101, poster_composer.py line 22). -/
def poster_height : ℕ := 1600

/-- `gap = (width - total_circles_width) / num_gaps` for a row of `k` circles
of diameter `c` (generator.py lines 156-158): float division, modelled
exactly in ℚ. -/
def grid_gap (k c : ℕ) : ℚ := ((poster_width : ℚ) - (k : ℚ) * (c : ℚ)) / ((k : ℚ) + 1)

/-- The exact value `gap + j * (circle_size + gap)` whose truncation is the
j-th x position of a row (generator.py line 159). -/
def grid_x (k c j : ℕ) : ℚ := grid_gap k c + (j : ℚ) * ((c : ℚ) + grid_gap k c)

/-- `int(gap + j * (circle_size + gap))` (generator.py line 159); in every
reachable configuration the value is nonnegative, where `int` is floor. -/
def grid_x_int (k c j : ℕ) : ℤ := ⌊grid_x k c j⌋

/-- `PosterComposer._calculate_speaker_layout` (poster_composer.py lines
589-600), returned as (rows, cols). -/
def calculate_speaker_layout (count : ℕ) : ℕ × ℕ :=
  if count ≤ 2 then (1, count)
  else if count ≤ 4 then (2, 2)
  else if count ≤ 6 then (2, 3)
  else if count ≤ 9 then (3, 3)
  else (4, 3)

/-- `grid_width = self.poster_width - 120` in `_add_speakers_grid_template`
(poster_composer.py line 358). -/
def template_grid_width : ℕ := poster_width - 120

/-- `cell_width = grid_width // layout["cols"]` (poster_composer.py
line 361). -/
def template_cell_width (cols : ℕ) : ℕ := template_grid_width / cols

/-- `x = 60 + col * cell_width` (poster_composer.py line 368): cells are laid
out from the left margin, for any row. -/
def template_cell_x (cols col : ℕ) : ℕ := 60 + col * template_cell_width cols

/-- `photo_size = 80` in `_add_speaker_cell_template` (poster_composer.py
line 387). -/
def template_photo_size : ℕ := 80

/-- `photo_x = x + width // 2 - photo_size // 2` (poster_composer.py
line 388). -/
def template_photo_x (cols col : ℕ) : ℕ :=
  template_cell_x cols col + template_cell_width cols / 2 - template_photo_size / 2

/-! ## Vertical cursor around the speaker grid -/

/-- `circle_size = 280 if n == 1 else 200 if n == 2 else 150 if n == 3 else
120` in `_generate_general_poster` (poster_composer.py line 117). -/
def circle_size_general (n : ℕ) : ℕ :=
  if n = 1 then 280 else if n = 2 then 200 else if n = 3 then 150 else 120

/-- Cursor at which `_generate_general_poster` draws the event details
(poster_composer.py lines 118, 145, 148): `grid_y = y`, after the speaker
loop `y = grid_y + circle_size + 220`, then `details_y = y + 80`.  The
advance happens for every speaker count, including zero. -/
def general_details_y (y n : ℕ) : ℕ := y + circle_size_general n + 220 + 80

/-- `speaker_grid_bottom` in `compose_poster` (generator.py lines 153, 216-219):
`y` starts at `y_cursor + 40` and each row advances it by
`circle_size + int(font_small.size * 2.2)` = `circle_size + 70`; with no
speakers the else branch sets `speaker_grid_bottom = y_cursor + 40`. -/
def compose_grid_bottom (y_cursor n : ℕ) : ℕ :=
  if n = 0 then y_cursor + 40
  else y_cursor + 40 + grid_rows n * (circle_size_compose n + 70)

/-- `details_y = speaker_grid_bottom + 30` (generator.py line 255, which
overwrites the line 221 value). -/
def compose_details_y (y_cursor n : ℕ) : ℕ := compose_grid_bottom y_cursor n + 30

/-! ## Asset resolution outcomes and the base poster -/

/-- Python exceptions relevant to the modelled paths. -/
inductive PyErr where
  | attributeError
  | imageDecodeError
deriving DecidableEq

/-- The background layer of the base poster: `Image.new` paints it plain
white; a resolved landmark is pasted over it (poster_composer.py
lines 216-222). -/
inductive Background where
  | plain_white
  | landmark (url : PyStr)
deriving DecidableEq

structure BasePoster where
  background : Background
  overlayApplied : Bool
deriving DecidableEq

/-- `PosterComposer._add_branding_overlay` (poster_composer.py lines
234-268): when the overlay search returns nothing (or raises) the poster is
returned unchanged; otherwise the overlay is alpha-composited on top. -/
def add_branding_overlay (overlay_url : Option PyStr) (poster : BasePoster) :
    BasePoster :=
  match overlay_url with
  | some _ => { poster with overlayApplied := true }
  | none => poster

/-- `PosterComposer._create_base_poster` (poster_composer.py lines 213-232):
white canvas, landmark pasted if resolved, then the branding overlay step. -/
def create_base_poster (landmark_url overlay_url : Option PyStr) : BasePoster :=
  let bg := match landmark_url with
    | some u => Background.landmark u
    | none => Background.plain_white
  add_branding_overlay overlay_url { background := bg, overlayApplied := false }

/-- Outcome of the landmark phase of `generate_posters`. -/
inductive RenderPhase where
  | aborted_missing_background
  | proceed (landmark_url : Option PyStr)
deriving DecidableEq

/-- `PosterComposer.generate_posters` lines 42-61: a missing landmark only
prints a warning; generation continues with `landmark_url = None`.  There is
no branch that aborts on a missing landmark. -/
def generate_posters_landmark_phase (landmark_url : Option PyStr) : RenderPhase :=
  match landmark_url with
  | none => RenderPhase.proceed none
  | some u => RenderPhase.proceed (some u)

/-! ## Per-speaker drawing -/

/-- Bytes of a resolved photo: either PIL can decode them or not. -/
inductive PhotoBytes where
  | decodable
  | malformed
deriving DecidableEq

/-- What got drawn for one speaker cell. -/
structure SpeakerCell where
  photoDrawn : Bool
  placeholderCircle : Bool
  credentialsDrawn : Bool
deriving DecidableEq

/-- Per-speaker step of `_generate_general_poster` (poster_composer.py lines
121-144): with no resolvable photo URL, a solid `#3498DB` ellipse is drawn
and the credential lines are drawn under it; with a resolved URL the bytes
are downloaded and decoded with no try/except, so malformed bytes raise out
of the loop. -/
def general_poster_speaker_step (photo : Option PhotoBytes) :
    Except PyErr SpeakerCell :=
  match photo with
  | none =>
      Except.ok { photoDrawn := false, placeholderCircle := true, credentialsDrawn := true }
  | some PhotoBytes.decodable =>
      Except.ok { photoDrawn := true, placeholderCircle := false, credentialsDrawn := true }
  | some PhotoBytes.malformed => Except.error PyErr.imageDecodeError

/-- Per-speaker step of `compose_poster` (generator.py lines 164-167):
`if not photo_url: continue` skips the photo, any placeholder and the
credential block entirely; a decode failure of resolved bytes raises out of
the loop (no try/except around `open_image`). -/
def compose_poster_speaker_step (photo : Option PhotoBytes) :
    Except PyErr SpeakerCell :=
  match photo with
  | none =>
      Except.ok { photoDrawn := false, placeholderCircle := false, credentialsDrawn := false }
  | some PhotoBytes.decodable =>
      Except.ok { photoDrawn := true, placeholderCircle := false, credentialsDrawn := true }
  | some PhotoBytes.malformed => Except.error PyErr.imageDecodeError

/-! ## The missing await on get_font_service -/

/-- The value bound by `font_service = get_font_service()` at
poster_composer.py line 83: `get_font_service` (font_service.py lines
136-142) is an `async def`, so calling it without `await` yields a coroutine
object, not a `FontService` instance. -/
inductive PyValue where
  | coroutine
  | font_service_instance
deriving DecidableEq

def get_font_service_unawaited : PyValue := PyValue.coroutine

/-- Attribute access `value.get_title_font`: only a `FontService` instance
has the attribute; on a coroutine object Python raises `AttributeError`. -/
def getattr_get_title_font : PyValue → Except PyErr Unit
  | PyValue.font_service_instance => Except.ok ()
  | PyValue.coroutine => Except.error PyErr.attributeError

structure PosterGenerationRequest where
  title : PyStr
  description : PyStr
  speakers : List PyStr
  landmark_url : Option PyStr

/-- A completed general poster: base layers plus drawn text content. -/
structure GeneralPoster where
  base : BasePoster
  content_draw_calls : ℕ
deriving DecidableEq

/-- `PosterComposer._generate_general_poster` (poster_composer.py lines
71-165) up to its first fault: the base poster is built (line 74), then line
83 binds `font_service` to the un-awaited coroutine and line 84 accesses
`.get_title_font` on it, which raises before any text or speaker content is
drawn.  The `Except.ok` continuation is unreachable. -/
def generate_general_poster (request : PosterGenerationRequest)
    (overlay_url : Option PyStr) : Except PyErr GeneralPoster :=
  let poster := create_base_poster request.landmark_url overlay_url
  let font_service := get_font_service_unawaited
  match getattr_get_title_font font_service with
  | Except.error e => Except.error e
  | Except.ok _ => Except.ok { base := poster, content_draw_calls := 0 }

/-! ## Cover-crop transforms -/

/-- Crop box computed by `ImageService.crop_to_aspect` (image_service.py
lines 20-37) for a `w × h` source and `tw × th` target: the aspect
comparison `src_aspect > target_aspect` decides which dimension is cropped;
`int(...)` is floor on these nonnegative values and `//` is `Int.fdiv`. -/
def crop_to_aspect_box (w h tw th : ℕ) : ℤ × ℤ × ℤ × ℤ :=
  if (tw : ℚ) / (th : ℚ) < (w : ℚ) / (h : ℚ) then
    let new_w : ℤ := ⌊((tw : ℚ) / (th : ℚ)) * (h : ℚ)⌋
    let left : ℤ := ((w : ℤ) - new_w).fdiv 2
    (left, 0, left + new_w, (h : ℤ))
  else
    let new_h : ℤ := ⌊(w : ℚ) / ((tw : ℚ) / (th : ℚ))⌋
    let top : ℤ := ((h : ℤ) - new_h).fdiv 2
    (0, top, (w : ℤ), top + new_h)

/-- Dimensions returned by `PIL.Image.crop(box)`: the box size, whatever the
source dimensions. -/
def pil_crop_size (l t r b : ℤ) : ℤ × ℤ := (r - l, b - t)

/-- Dimensions returned by `PIL.Image.resize(target)`: exactly the requested
size. -/
def pil_resize_size (dims target : ℤ × ℤ) : ℤ × ℤ := target

/-- Output dimensions of `ImageService.crop_to_aspect`: crop to the computed
box, then resize to the target size (image_service.py line 36). -/
def crop_to_aspect (w h tw th : ℕ) : ℤ × ℤ :=
  let box := crop_to_aspect_box w h tw th
  pil_resize_size (pil_crop_size box.1 box.2.1 box.2.2.1 box.2.2.2) ((tw : ℤ), (th : ℤ))

/-- Dimensions after the resize step of `PosterComposer._resize_and_crop`
(poster_composer.py lines 787-803): scale to match the target on the tight
dimension, keeping aspect ratio. -/
def resize_and_crop_dims (w h tw th : ℕ) : ℤ × ℤ :=
  if (tw : ℚ) / (th : ℚ) < (w : ℚ) / (h : ℚ) then
    (⌊(th : ℚ) * ((w : ℚ) / (h : ℚ))⌋, (th : ℤ))
  else
    ((tw : ℤ), ⌊(tw : ℚ) / ((w : ℚ) / (h : ℚ))⌋)

/-- Output dimensions of `PosterComposer._resize_and_crop` (lines 805-811):
resize, then crop the centred `tw × th` box. -/
def resize_and_crop (w h tw th : ℕ) : ℤ × ℤ :=
  let nd := resize_and_crop_dims w h tw th
  let left := (nd.1 - (tw : ℤ)).fdiv 2
  let top := (nd.2 - (th : ℤ)).fdiv 2
  pil_crop_size left top (left + (tw : ℤ)) (top + (th : ℤ))

/-! ## Poster metadata -/

structure PosterImage where
  width : ℕ
  height : ℕ
  content : List ℕ
deriving DecidableEq

/-- `PosterComposer._estimate_file_size` (poster_composer.py lines
1026-1029): `self.poster_width * self.poster_height * 3`, ignoring the
poster argument. -/
def estimate_file_size (poster : PosterImage) : ℕ := poster_width * poster_height * 3

structure PosterInfo where
  poster_type : PyStr
  file_size : ℕ
  width : ℕ
  height : ℕ
deriving DecidableEq

/-- The metadata dict returned by `_generate_general_poster`
(poster_composer.py lines 159-165). -/
def general_poster_info (poster : PosterImage) : PosterInfo :=
  { poster_type := ['g','e','n','e','r','a','l'],
    file_size := estimate_file_size poster,
    width := poster_width,
    height := poster_height }

/-! ## Lemmas on word splitting and wrapping -/

theorem splitWordsAux_ne_nil (s : List Char) :
    ∀ cur w, w ∈ splitWordsAux s cur → w ≠ [] := by
  induction s with
  | nil =>
      intro cur w hw
      rw [splitWordsAux] at hw
      by_cases h : cur = []
      · rw [if_pos h] at hw
        exact absurd hw (List.not_mem_nil w)
      · rw [if_neg h] at hw
        rcases List.mem_singleton.mp hw with rfl
        simpa using h
  | cons c cs ih =>
      intro cur w hw
      rw [splitWordsAux] at hw
      by_cases hws : c.isWhitespace
      · rw [if_pos hws] at hw
        by_cases h : cur = []
        · rw [if_pos h] at hw
          exact ih [] w hw
        · rw [if_neg h] at hw
          rcases List.mem_cons.mp hw with rfl | hw
          · simpa using h
          · exact ih [] w hw
      · rw [if_neg hws] at hw
        exact ih (c :: cur) w hw

theorem splitWords_ne_nil {s : PyStr} {w : PyStr} (hw : w ∈ splitWords s) : w ≠ [] :=
  splitWordsAux_ne_nil s [] w hw

theorem splitWordsAux_no_whitespace (s : List Char) :
    ∀ cur, (∀ ch ∈ cur, ¬ch.isWhitespace = true) →
      ∀ w ∈ splitWordsAux s cur, ∀ ch ∈ w, ¬ch.isWhitespace = true := by
  induction s with
  | nil =>
      intro cur hcur w hw ch hch
      rw [splitWordsAux] at hw
      by_cases h : cur = []
      · rw [if_pos h] at hw
        exact absurd hw (List.not_mem_nil w)
      · rw [if_neg h] at hw
        rcases List.mem_singleton.mp hw with rfl
        exact hcur ch (List.mem_reverse.mp hch)
  | cons c cs ih =>
      intro cur hcur w hw ch hch
      rw [splitWordsAux] at hw
      by_cases hws : c.isWhitespace
      · rw [if_pos hws] at hw
        by_cases h : cur = []
        · rw [if_pos h] at hw
          exact ih [] (by intro x hx; exact absurd hx (List.not_mem_nil x)) w hw ch hch
        · rw [if_neg h] at hw
          rcases List.mem_cons.mp hw with rfl | hw
          · exact hcur ch (List.mem_reverse.mp hch)
          · exact ih [] (by intro x hx; exact absurd hx (List.not_mem_nil x)) w hw ch hch
      · rw [if_neg hws] at hw
        refine ih (c :: cur) ?_ w hw ch hch
        intro x hx
        rcases List.mem_cons.mp hx with rfl | hx
        · exact hws
        · exact hcur x hx

theorem splitWords_no_whitespace {s : PyStr} {w : PyStr} (hw : w ∈ splitWords s) :
    ∀ ch ∈ w, ¬ch.isWhitespace = true :=
  splitWordsAux_no_whitespace s []
    (by intro x hx; exact absurd hx (List.not_mem_nil x)) w hw

theorem joinSp_cons (w : PyStr) (ws : List PyStr) (h : ws ≠ []) :
    joinSp (w :: ws) = w ++ ' ' :: joinSp ws := by
  cases ws with
  | nil => exact absurd rfl h
  | cons w2 ws => rfl

theorem wrapAux_eq_drawWrapAux (font : PyStr → Nat) (maxWidth : Nat) :
    ∀ ws cur, wrapAux font maxWidth ws cur = drawWrapAux font maxWidth ws cur := by
  intro ws
  induction ws with
  | nil => intro cur; rfl
  | cons w ws ih =>
      intro cur
      rw [wrapAux, drawWrapAux]
      simp only [ih]
      by_cases hc : cur = []
      · subst hc
        simp
      · simp only [if_neg hc]
        by_cases hfit : font (cur ++ ' ' :: w) ≤ maxWidth
        · rw [if_pos hfit, if_neg (fun h => absurd h.1 (Nat.not_lt.mpr hfit))]
        · rw [if_neg hfit, if_pos (And.intro (Nat.lt_of_not_le hfit) hc)]

/-- The two text-wrapping routines of the repository are extensionally
equal. -/
theorem wrap_text_eq_draw_wrapped_text_lines (font : PyStr → Nat) (text : PyStr)
    (maxWidth : Nat) :
    wrap_text font text maxWidth = draw_wrapped_text_lines font text maxWidth :=
  wrapAux_eq_drawWrapAux font maxWidth (splitWords text) []

theorem wrapAux_ne_nil (font : PyStr → Nat) (maxWidth : Nat) :
    ∀ ws cur, cur ≠ [] → wrapAux font maxWidth ws cur ≠ [] := by
  intro ws
  induction ws with
  | nil =>
      intro cur hc
      rw [wrapAux, if_neg hc]
      simp
  | cons w ws ih =>
      intro cur hc
      rw [wrapAux]
      by_cases hfit : font (if cur = [] then w else cur ++ ' ' :: w) ≤ maxWidth
      · rw [if_pos hfit]
        apply ih
        simp [if_neg hc, hc]
      · rw [if_neg hfit, if_neg hc]
        simp

theorem wrapAux_joinSp (font : PyStr → Nat) (maxWidth : Nat) :
    ∀ ws cur, cur ≠ [] → (∀ w ∈ ws, w ≠ []) →
      joinSp (wrapAux font maxWidth ws cur) = joinSp (cur :: ws) := by
  intro ws
  induction ws with
  | nil =>
      intro cur hc _
      rw [wrapAux, if_neg hc]
  | cons w ws ih =>
      intro cur hc hws
      have hw : w ≠ [] := hws w (List.mem_cons_self w ws)
      have hws2 : ∀ u ∈ ws, u ≠ [] := fun u hu => hws u (List.mem_cons_of_mem w hu)
      rw [wrapAux]
      simp only [if_neg hc]
      by_cases hfit : font (cur ++ ' ' :: w) ≤ maxWidth
      · rw [if_pos hfit, ih (cur ++ ' ' :: w) (by simp) hws2]
        cases ws with
        | nil => rfl
        | cons u us =>
            rw [joinSp_cons (cur ++ ' ' :: w) (u :: us) (List.cons_ne_nil u us),
              joinSp_cons cur (w :: u :: us) (List.cons_ne_nil w (u :: us)),
              joinSp_cons w (u :: us) (List.cons_ne_nil u us)]
            simp
      · rw [if_neg hfit, joinSp_cons cur _ (wrapAux_ne_nil font maxWidth ws w hw),
          ih w hw hws2, joinSp_cons cur (w :: ws) (List.cons_ne_nil w ws)]

theorem wrapAux_nil_start (font : PyStr → Nat) (maxWidth : Nat) (w : PyStr)
    (ws : List PyStr) :
    wrapAux font maxWidth (w :: ws) [] = wrapAux font maxWidth ws w := by
  rw [wrapAux]
  simp

theorem wrapAux_mem (font : PyStr → Nat) (maxWidth : Nat) (S : List PyStr) :
    ∀ ws cur, (cur = [] ∨ font cur ≤ maxWidth ∨ cur ∈ S) → (∀ w ∈ ws, w ∈ S) →
      ∀ line ∈ wrapAux font maxWidth ws cur, font line ≤ maxWidth ∨ line ∈ S := by
  intro ws
  induction ws with
  | nil =>
      intro cur hcur _ line hline
      rw [wrapAux] at hline
      by_cases hc : cur = []
      · rw [if_pos hc] at hline
        exact absurd hline (List.not_mem_nil line)
      · rw [if_neg hc] at hline
        rcases List.mem_singleton.mp hline with rfl
        rcases hcur with h | h | h
        · exact absurd h hc
        · exact Or.inl h
        · exact Or.inr h
  | cons w ws ih =>
      intro cur hcur hws line hline
      have hwS : w ∈ S := hws w (List.mem_cons_self w ws)
      have hws2 : ∀ u ∈ ws, u ∈ S := fun u hu => hws u (List.mem_cons_of_mem w hu)
      rw [wrapAux] at hline
      by_cases hfit : font (if cur = [] then w else cur ++ ' ' :: w) ≤ maxWidth
      · rw [if_pos hfit] at hline
        exact ih _ (Or.inr (Or.inl hfit)) hws2 line hline
      · rw [if_neg hfit] at hline
        by_cases hc : cur = []
        · rw [if_pos hc] at hline
          exact ih w (Or.inr (Or.inr hwS)) hws2 line hline
        · rw [if_neg hc] at hline
          rcases List.mem_cons.mp hline with rfl | hline
          · rcases hcur with h | h | h
            · exact absurd h hc
            · exact Or.inl h
            · exact Or.inr h
          · exact ih w (Or.inr (Or.inr hwS)) hws2 line hline

/-! ## Claim C1 -/

/-- C1: for every text, font-metric function and maximum pixel width, every
line returned by either text-wrapping routine (`_wrap_text` in
poster_composer.py and the wrapping of `draw_wrapped_text` in generator.py)
either measures at most the maximum width under the font metric, or is
exactly one word of the input (a member of `splitWords text`, and words
contain no whitespace, so no word is ever split mid-word). -/
theorem wrap_lines_fit_or_are_single_words (font : PyStr → Nat) (text : PyStr)
    (maxWidth : Nat) :
    (∀ line ∈ wrap_text font text maxWidth,
        font line ≤ maxWidth ∨ line ∈ splitWords text) ∧
    (∀ line ∈ draw_wrapped_text_lines font text maxWidth,
        font line ≤ maxWidth ∨ line ∈ splitWords text) ∧
    (∀ w ∈ splitWords text, ∀ ch ∈ w, ¬ch.isWhitespace = true) := by
  refine ⟨?_, ?_, fun w hw => splitWords_no_whitespace hw⟩
  · exact wrapAux_mem font maxWidth (splitWords text) (splitWords text) []
      (Or.inl rfl) (fun w hw => hw)
  · intro line hline
    rw [draw_wrapped_text_lines, ← wrapAux_eq_drawWrapAux] at hline
    exact wrapAux_mem font maxWidth (splitWords text) (splitWords text) []
      (Or.inl rfl) (fun w hw => hw) line hline

/-- Witness for C1 at a concrete input: with the length metric, text
"aa bb" and width 2, the line "aa" is returned and satisfies the
disjunction. -/
theorem wrap_lines_fit_or_are_single_words_witness :
    (['a','a'] ∈ wrap_text List.length ['a','a',' ','b','b'] 2) ∧
    (List.length ['a','a'] ≤ 2 ∨ ['a','a'] ∈ splitWords ['a','a',' ','b','b']) :=
  ⟨by decide,
    (wrap_lines_fit_or_are_single_words List.length ['a','a',' ','b','b'] 2).1
      ['a','a'] (by decide)⟩

/-! ## Claim C2 -/

/-- C2: for every text, font-metric function and maximum width, joining the
lines returned by either wrapping routine with single spaces reconstructs
exactly the whitespace-normalised input (the input words in order, none lost
and none duplicated). -/
theorem wrap_join_reconstructs_normalized_text (font : PyStr → Nat) (text : PyStr)
    (maxWidth : Nat) :
    joinSp (wrap_text font text maxWidth) = joinSp (splitWords text) ∧
    joinSp (draw_wrapped_text_lines font text maxWidth) = joinSp (splitWords text) := by
  have key : joinSp (wrap_text font text maxWidth) = joinSp (splitWords text) := by
    rw [wrap_text]
    cases h : splitWords text with
    | nil => rfl
    | cons w ws =>
        have hw : w ≠ [] := splitWords_ne_nil (h ▸ List.mem_cons_self w ws)
        have hws : ∀ u ∈ ws, u ≠ [] := fun u hu =>
          splitWords_ne_nil (h ▸ List.mem_cons_of_mem w hu)
        rw [wrapAux_nil_start, wrapAux_joinSp font maxWidth ws w hw hws]
  refine ⟨key, ?_⟩
  rw [draw_wrapped_text_lines, ← wrapAux_eq_drawWrapAux]
  exact key

/-! ## Claim C3 -/

/-- C3 counterexample: the claim `rows == ceil(speakerCount / 4)` and
`rows * cols >= speakerCount` fails on
`PosterComposer._calculate_speaker_layout`: for 3 speakers it returns 2 rows
while the asserted ceiling is `grid_rows 3 = 1`, and for 13 speakers its
4 × 3 grid has capacity 12 < 13. -/
theorem calculate_speaker_layout_breaks_ceil_invariant :
    (calculate_speaker_layout 3).1 = 2 ∧ grid_rows 3 = 1 ∧
    (calculate_speaker_layout 3).1 ≠ grid_rows 3 ∧
    (calculate_speaker_layout 13).1 * (calculate_speaker_layout 13).2 < 13 := by
  decide

/-- C3 amended: in `PosterGenerator.compose_poster` (generator.py lines
149-151) the row count is `math.ceil(n / max_per_row)` with
`max_per_row = 4`: `grid_rows n` is the least `m` with `4 * m ≥ n`, so in
particular the grid capacity `max_per_row * grid_rows n` covers every
speaker. -/
theorem compose_poster_rows_eq_ceil_and_capacity :
    max_per_row = 4 ∧
    (∀ n : ℕ, n ≤ max_per_row * grid_rows n) ∧
    (∀ n m : ℕ, n ≤ max_per_row * m → grid_rows n ≤ m) := by
  refine ⟨rfl, ?_, ?_⟩
  · intro n
    simp only [grid_rows, max_per_row]
    omega
  · intro n m hnm
    simp only [grid_rows, max_per_row] at *
    omega

/-- Witness for C3 at a concrete input: 5 speakers fit in 2 rows of 4, and
`grid_rows 5 ≤ 2`. -/
theorem compose_poster_rows_eq_ceil_and_capacity_witness :
    (5 : ℕ) ≤ max_per_row * 2 ∧ grid_rows 5 ≤ 2 :=
  ⟨by decide, compose_poster_rows_eq_ceil_and_capacity.2.2 5 2 (by decide)⟩

/-! ## Claim C4 -/

/-- C4 counterexample: in the composer template path
(`_calculate_speaker_layout` + `_add_speakers_grid_template`), 5 speakers
give a 2 × 3 layout — a first row of 3, not 4 — and the second row holds the
two circles at columns 0 and 1 of the left-anchored cells: their centres are
x = 240 and x = 600, so the block midpoint is 420, not the canvas midline
600.  The partial row is left-aligned, not centred, contradicting the
claim. -/
theorem template_grid_partial_row_not_centered :
    calculate_speaker_layout 5 = (2, 3) ∧
    (calculate_speaker_layout 5).2 ≠ 4 ∧
    template_photo_x 3 0 + template_photo_size / 2 = 240 ∧
    template_photo_x 3 1 + template_photo_size / 2 = 600 ∧
    (240 + 600) / 2 ≠ poster_width / 2 := by
  decide

/-- C4 amended: in `PosterGenerator.compose_poster` every row of `k` circles
of diameter `c` is evenly spaced (consecutive x positions differ by
`c + gap`) and centred as a block on the canvas: the first circle starts one
gap from the left edge and the last circle ends one gap from the right edge.
With 5 speakers the layout is 2 rows of 4 + 1, and the single circle of the
second row (diameter 160) is placed at x = 520, so its centre 600 is the
canvas midline.  In the composer template path the partial row is instead
left-aligned (see the counterexample). -/
theorem compose_poster_rows_centered_evenly_spaced :
    (∀ k c j : ℕ, grid_x k c (j + 1) - grid_x k c j = (c : ℚ) + grid_gap k c) ∧
    (∀ k c : ℕ, grid_x k c 0 = grid_gap k c) ∧
    (∀ k c j : ℕ, j + 1 = k →
      grid_x k c j + (c : ℚ) + grid_gap k c = (poster_width : ℚ)) ∧
    grid_rows 5 = 2 ∧ speakers_in_row 5 0 = 4 ∧ speakers_in_row 5 1 = 1 ∧
    grid_x_int 1 (circle_size_compose 5) 0 = 520 ∧
    (520 + (circle_size_compose 5 : ℤ) / 2) * 2 = (poster_width : ℤ) := by
  refine ⟨?_, ?_, ?_, by decide, by decide, by decide, ?_, by decide⟩
  · intro k c j
    simp only [grid_x]
    push_cast
    ring
  · intro k c
    simp [grid_x]
  · intro k c j hj
    have hjq : (j : ℚ) = (k : ℚ) - 1 := by
      have h2 : ((j : ℚ) + 1) = (k : ℚ) := by
        exact_mod_cast congrArg (Nat.cast (R := ℚ)) hj
      linarith
    have hk1 : ((k : ℚ) + 1) ≠ 0 := by positivity
    simp only [grid_x, grid_gap, hjq]
    field_simp
    ring
  · have hc : circle_size_compose 5 = 160 := by decide
    rw [hc]
    have h : grid_x 1 160 0 = (520 : ℚ) := by
      simp only [grid_x, grid_gap, poster_width]
      norm_num
    rw [grid_x_int, h]
    norm_num

/-- Witness for C4 at a concrete input: the right-margin identity applied to
the one-circle row (k = 1, c = 160, j = 0). -/
theorem compose_poster_rows_centered_evenly_spaced_witness :
    (0 + 1 = 1) ∧
    grid_x 1 160 0 + (160 : ℚ) + grid_gap 1 160 = (poster_width : ℚ) :=
  ⟨rfl, compose_poster_rows_centered_evenly_spaced.2.2.1 1 160 0 rfl⟩

/-! ## Claim C7 -/

/-- C7 counterexample: with 0 speakers, `_generate_general_poster` still
advances the vertical cursor by the full single-row allowance: the event
details start 420 px below the summary (circle 120 + 220 + 80), exactly as
they would for a full 4-speaker row, not after a small fixed margin; and
`_calculate_speaker_layout(0)` reports 1 row, not 0. -/
theorem zero_speakers_gap_counterexample :
    general_details_y 1000 0 = 1420 ∧
    general_details_y 1000 0 ≠ 1000 + 80 ∧
    general_details_y 1000 0 = general_details_y 1000 4 ∧
    calculate_speaker_layout 0 = (1, 0) := by
  decide

/-- C7 amended: with 0 speakers, `PosterGenerator.compose_poster` skips the
grid and starts the event details at the post-summary cursor plus a fixed
70 px (40 + 30); `PosterComposer._generate_general_poster` instead always
advances the cursor by the fixed single-row allowance of 420 px
(circle 120 + 220 + 80), the same slack as for a row of 4 or more
speakers. -/
theorem zero_speakers_cursor_behavior (y : ℕ) :
    compose_details_y y 0 = y + 70 ∧
    general_details_y y 0 = y + 420 ∧
    general_details_y y 0 = general_details_y y 4 := by
  refine ⟨?_, ?_, ?_⟩ <;>
    simp [compose_details_y, compose_grid_bottom, general_details_y,
      circle_size_general]

/-! ## Claim C5 -/

/-- C5 counterexample: when the landmark lookup resolves nothing,
`generate_posters` does not abort — it proceeds to generate the poster, whose
base is the plain white background (with the overlay still applied when
found).  No fatal-asset error path exists for the missing landmark. -/
theorem missing_landmark_does_not_abort :
    generate_posters_landmark_phase none = RenderPhase.proceed none ∧
    generate_posters_landmark_phase none ≠ RenderPhase.aborted_missing_background ∧
    create_base_poster none (some ['o','v','e','r','l','a','y']) =
      { background := Background.plain_white, overlayApplied := true } := by
  decide

/-- C5 amended: a missing landmark never aborts the render — generation
proceeds with the background left plain white; and a missing branding
overlay leaves the base poster completely unmodified, so the render
completes with the background unchanged. -/
theorem asset_missing_fallback_behavior (landmark_url overlay_url : Option PyStr)
    (p : BasePoster) :
    generate_posters_landmark_phase landmark_url = RenderPhase.proceed landmark_url ∧
    add_branding_overlay none p = p ∧
    (create_base_poster none overlay_url).background = Background.plain_white := by
  refine ⟨?_, rfl, ?_⟩
  · cases landmark_url <;> rfl
  · cases overlay_url <;> rfl

/-! ## Claim C6 -/

/-- C6 counterexample: in `_generate_general_poster` a resolved photo whose
bytes fail to decode raises out of the speaker loop and aborts the whole
render (no try/except around `_download_image`); and in
`compose_poster` (generator.py) an unresolvable photo is skipped with
`continue`: no placeholder circle is drawn and the credential block is
skipped too. -/
theorem speaker_photo_failure_counterexample :
    general_poster_speaker_step (some PhotoBytes.malformed) =
      Except.error PyErr.imageDecodeError ∧
    compose_poster_speaker_step none =
      Except.ok { photoDrawn := false, placeholderCircle := false,
                  credentialsDrawn := false } :=
  ⟨rfl, rfl⟩

/-- C6 amended: in `_generate_general_poster` a speaker whose photo cannot
be RESOLVED does get a solid placeholder circle with the credential text
still drawn (and never aborts the render), but a resolved photo whose bytes
fail to DECODE raises and aborts the whole render; in
`compose_poster` (generator.py) an unresolvable photo skips that speaker's
photo and credentials entirely, with no placeholder, and malformed bytes
abort there as well. -/
theorem speaker_photo_fallback_behavior :
    general_poster_speaker_step none =
      Except.ok { photoDrawn := false, placeholderCircle := true,
                  credentialsDrawn := true } ∧
    general_poster_speaker_step (some PhotoBytes.malformed) =
      Except.error PyErr.imageDecodeError ∧
    compose_poster_speaker_step none =
      Except.ok { photoDrawn := false, placeholderCircle := false,
                  credentialsDrawn := false } ∧
    compose_poster_speaker_step (some PhotoBytes.malformed) =
      Except.error PyErr.imageDecodeError :=
  ⟨rfl, rfl, rfl, rfl⟩

/-! ## Claim C8 -/

theorem resize_and_crop_dims_ge (w h tw th : ℕ)
    (hw : 0 < w) (hh : 0 < h) (htw : 0 < tw) (hth : 0 < th) :
    (tw : ℤ) ≤ (resize_and_crop_dims w h tw th).1 ∧
    (th : ℤ) ≤ (resize_and_crop_dims w h tw th).2 := by
  have hwq : (0 : ℚ) < (w : ℚ) := by exact_mod_cast hw
  have hhq : (0 : ℚ) < (h : ℚ) := by exact_mod_cast hh
  have htwq : (0 : ℚ) < (tw : ℚ) := by exact_mod_cast htw
  have hthq : (0 : ℚ) < (th : ℚ) := by exact_mod_cast hth
  rw [resize_and_crop_dims]
  by_cases hgt : (tw : ℚ) / (th : ℚ) < (w : ℚ) / (h : ℚ)
  · rw [if_pos hgt]
    refine ⟨Int.le_floor.mpr ?_, le_refl _⟩
    push_cast
    calc (tw : ℚ) = (th : ℚ) * ((tw : ℚ) / (th : ℚ)) := by field_simp
      _ ≤ (th : ℚ) * ((w : ℚ) / (h : ℚ)) :=
          mul_le_mul_of_nonneg_left (le_of_lt hgt) (le_of_lt hthq)
  · rw [if_neg hgt]
    refine ⟨le_refl _, Int.le_floor.mpr ?_⟩
    push_cast
    have hle : (w : ℚ) / (h : ℚ) ≤ (tw : ℚ) / (th : ℚ) := le_of_not_lt hgt
    have hwh : (0 : ℚ) < (w : ℚ) / (h : ℚ) := by positivity
    rw [le_div_iff₀ hwh]
    calc (th : ℚ) * ((w : ℚ) / (h : ℚ)) ≤ (th : ℚ) * ((tw : ℚ) / (th : ℚ)) :=
          mul_le_mul_of_nonneg_left hle (le_of_lt hthq)
      _ = (tw : ℚ) := by field_simp

theorem crop_to_aspect_box_in_bounds (w h tw th : ℕ)
    (hw : 0 < w) (hh : 0 < h) (htw : 0 < tw) (hth : 0 < th) :
    0 ≤ (crop_to_aspect_box w h tw th).1 ∧
    0 ≤ (crop_to_aspect_box w h tw th).2.1 ∧
    (crop_to_aspect_box w h tw th).2.2.1 ≤ (w : ℤ) ∧
    (crop_to_aspect_box w h tw th).2.2.2 ≤ (h : ℤ) := by
  have hwq : (0 : ℚ) < (w : ℚ) := by exact_mod_cast hw
  have hhq : (0 : ℚ) < (h : ℚ) := by exact_mod_cast hh
  have htwq : (0 : ℚ) < (tw : ℚ) := by exact_mod_cast htw
  have hthq : (0 : ℚ) < (th : ℚ) := by exact_mod_cast hth
  rw [crop_to_aspect_box]
  by_cases hgt : (tw : ℚ) / (th : ℚ) < (w : ℚ) / (h : ℚ)
  · rw [if_pos hgt]
    have hnw0 : 0 ≤ ⌊((tw : ℚ) / (th : ℚ)) * (h : ℚ)⌋ :=
      Int.floor_nonneg.mpr (by positivity)
    have hnww : ⌊((tw : ℚ) / (th : ℚ)) * (h : ℚ)⌋ ≤ (w : ℤ) := by
      have hlt : ((tw : ℚ) / (th : ℚ)) * (h : ℚ) ≤ (w : ℚ) := by
        have h2 := mul_le_mul_of_nonneg_right (le_of_lt hgt) (le_of_lt hhq)
        calc ((tw : ℚ) / (th : ℚ)) * (h : ℚ) ≤ ((w : ℚ) / (h : ℚ)) * (h : ℚ) := h2
          _ = (w : ℚ) := by field_simp
      calc ⌊((tw : ℚ) / (th : ℚ)) * (h : ℚ)⌋ ≤ ⌊(w : ℚ)⌋ := Int.floor_le_floor hlt
        _ = (w : ℤ) := Int.floor_natCast w
    constructor
    · simp only
      rw [Int.fdiv_eq_ediv _ (by norm_num)]
      omega
    refine ⟨le_refl 0, ?_, le_refl _⟩
    simp only
    rw [Int.fdiv_eq_ediv _ (by norm_num)]
    omega
  · rw [if_neg hgt]
    have hle : (w : ℚ) / (h : ℚ) ≤ (tw : ℚ) / (th : ℚ) := le_of_not_lt hgt
    have hwh : (0 : ℚ) < (tw : ℚ) / (th : ℚ) := by positivity
    have hnh0 : 0 ≤ ⌊(w : ℚ) / ((tw : ℚ) / (th : ℚ))⌋ :=
      Int.floor_nonneg.mpr (by positivity)
    have hnhh : ⌊(w : ℚ) / ((tw : ℚ) / (th : ℚ))⌋ ≤ (h : ℤ) := by
      have hlt : (w : ℚ) / ((tw : ℚ) / (th : ℚ)) ≤ (h : ℚ) := by
        rw [div_le_iff₀ hwh]
        calc (w : ℚ) = (h : ℚ) * ((w : ℚ) / (h : ℚ)) := by field_simp
          _ ≤ (h : ℚ) * ((tw : ℚ) / (th : ℚ)) :=
              mul_le_mul_of_nonneg_left hle (le_of_lt hhq)
      calc ⌊(w : ℚ) / ((tw : ℚ) / (th : ℚ))⌋ ≤ ⌊(h : ℚ)⌋ := Int.floor_le_floor hlt
        _ = (h : ℤ) := Int.floor_natCast h
    refine ⟨le_refl 0, ?_, le_refl _, ?_⟩
    · simp only
      rw [Int.fdiv_eq_ediv _ (by norm_num)]
      omega
    · simp only
      rw [Int.fdiv_eq_ediv _ (by norm_num)]
      omega

/-- C8: for every source image of positive dimensions and every positive
target dimensions, both cover-crop transforms (`ImageService.crop_to_aspect`
and `PosterComposer._resize_and_crop`) return an image of exactly
targetWidth × targetHeight pixels, whatever the source aspect ratio; and
their intermediate crop windows never leave the source, so the output is
genuine image content, not padding. -/
theorem crop_functions_return_target_dims (w h tw th : ℕ)
    (hw : 0 < w) (hh : 0 < h) (htw : 0 < tw) (hth : 0 < th) :
    resize_and_crop w h tw th = ((tw : ℤ), (th : ℤ)) ∧
    crop_to_aspect w h tw th = ((tw : ℤ), (th : ℤ)) ∧
    (tw : ℤ) ≤ (resize_and_crop_dims w h tw th).1 ∧
    (th : ℤ) ≤ (resize_and_crop_dims w h tw th).2 ∧
    0 ≤ (crop_to_aspect_box w h tw th).1 ∧
    0 ≤ (crop_to_aspect_box w h tw th).2.1 ∧
    (crop_to_aspect_box w h tw th).2.2.1 ≤ (w : ℤ) ∧
    (crop_to_aspect_box w h tw th).2.2.2 ≤ (h : ℤ) := by
  obtain ⟨h1, h2⟩ := resize_and_crop_dims_ge w h tw th hw hh htw hth
  obtain ⟨h3, h4, h5, h6⟩ := crop_to_aspect_box_in_bounds w h tw th hw hh htw hth
  refine ⟨?_, rfl, h1, h2, h3, h4, h5, h6⟩
  rw [resize_and_crop, pil_crop_size]
  simp

/-- Witness for C8 at a concrete input: a 2 × 1 source cropped to a 1 × 1
target. -/
theorem crop_functions_return_target_dims_witness :
    ((0 : ℕ) < 2 ∧ (0 : ℕ) < 1) ∧
    (resize_and_crop 2 1 1 1 = ((1 : ℤ), (1 : ℤ)) ∧
      crop_to_aspect 2 1 1 1 = ((1 : ℤ), (1 : ℤ)) ∧
      (1 : ℤ) ≤ (resize_and_crop_dims 2 1 1 1).1 ∧
      (1 : ℤ) ≤ (resize_and_crop_dims 2 1 1 1).2 ∧
      0 ≤ (crop_to_aspect_box 2 1 1 1).1 ∧
      0 ≤ (crop_to_aspect_box 2 1 1 1).2.1 ∧
      (crop_to_aspect_box 2 1 1 1).2.2.1 ≤ (2 : ℤ) ∧
      (crop_to_aspect_box 2 1 1 1).2.2.2 ≤ (1 : ℤ)) :=
  ⟨⟨by decide, by decide⟩,
    crop_functions_return_target_dims 2 1 1 1 (by decide) (by decide) (by decide)
      (by decide)⟩

/-! ## Claim C9 -/

/-- C9: for every request and however the overlay resolves,
`_generate_general_poster` raises `AttributeError` before drawing any
content: line 83 binds `font_service` to the coroutine returned by the
un-awaited `get_font_service()`, so the `get_title_font` attribute access at
line 84 fails on every input, and this render path never produces a
poster. -/
theorem generate_general_poster_always_attribute_error
    (request : PosterGenerationRequest) (overlay_url : Option PyStr) :
    generate_general_poster request overlay_url =
      Except.error PyErr.attributeError ∧
    ∀ g : GeneralPoster,
      generate_general_poster request overlay_url ≠ Except.ok g := by
  refine ⟨rfl, ?_⟩
  intro g hg
  rw [show generate_general_poster request overlay_url =
    Except.error PyErr.attributeError from rfl] at hg
  exact Except.noConfusion hg

/-! ## Claim C10 -/

/-- C10: the `file_size` field of the returned general-poster metadata is
the constant `poster_width * poster_height * 3 = 5760000` bytes, identical
for any two posters and independent of the poster content or of any actual
encoded PNG size. -/
theorem estimate_file_size_constant (p q : PosterImage) :
    (general_poster_info p).file_size = 5760000 ∧
    estimate_file_size p = estimate_file_size q ∧
    estimate_file_size p = poster_width * poster_height * 3 :=
  ⟨rfl, rfl, rfl⟩

end CmtPoster
